import Mathlib

/-!
Verification of the blog-comment-service worker (Cloudflare Workers, TypeScript).

The development shallowly embeds the worker's logic:
* the D1 `comments` table as a list of rows;
* `recursiveQuery` (the comment-tree read path) with an explicit fuel
  parameter standing for the available call depth (the source uses unbounded
  native recursion; `none` models a non-terminating/aborted run);
* the `POST /comment` branch of the `fetch` handler, with the external
  effects (markdown renderer, D1 insert outcome, queue sends, the generated
  uuid and the autoincrement id, the clock) passed in explicitly;
* the email queue consumer (`queue` handler), `registerRecipientEmail` and
  `sendEmail`, with the Brevo HTTP provider modelled as oracles for the
  responses it returns;
* the Telegram notifier's message construction over UTF-16 code units;
* the `GET /comment` id-type validation, with JavaScript's `Number(string)`
  conversion modelled as exact-rational parsing of the ECMAScript grammar
  followed by IEEE-754 binary64 rounding;
* `setCorsHeaderToResponse` together with the module-global mutable
  `corsHeaders` object, as an explicit state-passing function.
-/

namespace BlogCommentService

/-! ## Comment store model

A row of the D1 `comments` table (schema:
`comments(id, article_id, parent_id, level, author_name, author_email,
author_website, markdown_content, html_content, comment_timestamp_ms, uuid)`).
-/

structure Row where
  id : Nat
  article_id : String
  parent_id : Nat
  level : Nat
  author_name : String
  author_email : String
  author_website : String
  markdown_content : String
  html_content : String
  comment_timestamp_ms : Nat
  uuid : String
deriving DecidableEq, Repr

/-- The `comments` table: rows in store order (insertion order). -/
abbrev Table := List Row

/-! ## Tree query engine (`recursiveQuery`) -/

/-- The `base_type` argument of `recursiveQuery`: `'article' | 'comment'`. -/
inductive BaseType where
  | article
  | comment
deriving DecidableEq, Repr

/-- The `parent_id` argument of `recursiveQuery`: `string | number`.
The handler passes a string for articles and a number for comments. -/
inductive BaseId where
  | str (s : String)
  | num (n : Int)
deriving DecidableEq, Repr

/-- The `Comment` response type: a node of the tree returned to the client. -/
structure CommentTree where
  id : Nat
  author : String
  email : String
  website : String
  content : String
  comment_timestamp_ms : Nat
  children : List CommentTree

/-- The WHERE clause of the two prepared statements in `recursiveQuery`:
`article_id = ?1 AND parent_id = 0` for base type article, and
`parent_id = ?1` for base type comment.  A number never matches the string
column `article_id` and vice versa. -/
def rowMatchesBase (r : Row) (bt : BaseType) (bid : BaseId) : Bool :=
  match bt, bid with
  | .article, .str aid => r.article_id == aid && r.parent_id == 0
  | .article, .num _ => false
  | .comment, .num pid => (r.parent_id : Int) == pid
  | .comment, .str _ => false

/-- Building one `Comment` object from a selected row, as in the loop body of
`recursiveQuery` (`children` filled in separately). -/
def rowToComment (r : Row) (children : List CommentTree) : CommentTree :=
  ⟨r.id, r.author_name, r.author_email, r.author_website, r.html_content,
    r.comment_timestamp_ms, children⟩

/-- The `for (const result of record.results)` loop of `recursiveQuery`,
abstracted over the body: building any element may abort the whole run
(there, by the recursive call never returning; here, `none`). -/
def queryLoop {α β : Type} (f : α → Option β) : List α → Option (List β)
  | [] => some []
  | a :: as =>
    match f a with
    | none => none
    | some b =>
      match queryLoop f as with
      | none => none
      | some bs => some (b :: bs)

/-- `recursiveQuery(db, base_type, parent_id, is_recursive)`.  `fuel` bounds
the recursion depth (the source recurses natively without bound); `none`
means the fuel ran out before the stored links did. -/
def recursiveQuery (table : Table) : Nat → BaseType → BaseId → Bool → Option (List CommentTree)
  | 0, _, _, _ => none
  | fuel + 1, bt, bid, is_recursive =>
    queryLoop
      (fun r =>
        match (if is_recursive then recursiveQuery table fuel .comment (.num r.id) true
               else some []) with
        | none => none
        | some children => some (rowToComment r children))
      (table.filter fun r => rowMatchesBase r bt bid)

/-- A tree node with its subtrees dropped (for comparing the top layer of two
query results). -/
def treeRoot (c : CommentTree) : CommentTree :=
  ⟨c.id, c.author, c.email, c.website, c.content, c.comment_timestamp_ms, []⟩

/-! Helper lemmas about `queryLoop`. -/

theorem queryLoop_eq_some_of_forall {α β : Type} (f : α → Option β) (g : α → β)
    (l : List α) (h : ∀ a ∈ l, f a = some (g a)) : queryLoop f l = some (l.map g) := by
  induction l with
  | nil => rfl
  | cons a l ih =>
    have ha : f a = some (g a) := h a (List.mem_cons_self a l)
    have hl : queryLoop f l = some (l.map g) := ih fun x hx => h x (List.mem_cons_of_mem a hx)
    simp [queryLoop, ha, hl]

theorem forall₂_of_queryLoop_eq_some {α β : Type} (f : α → Option β) :
    ∀ (l : List α) (res : List β), queryLoop f l = some res →
      List.Forall₂ (fun a b => f a = some b) l res := by
  intro l
  induction l with
  | nil =>
    intro res h
    simp only [queryLoop, Option.some.injEq] at h
    subst h
    exact List.Forall₂.nil
  | cons a l ih =>
    intro res h
    simp only [queryLoop] at h
    cases hfa : f a with
    | none => simp [hfa] at h
    | some b =>
      cases hfl : queryLoop f l with
      | none => simp [hfa, hfl] at h
      | some bs =>
        simp only [hfa, hfl, Option.some.injEq] at h
        subst h
        exact List.Forall₂.cons hfa (ih bs hfl)

/-! ## POST /comment handler

The POST branch of the `fetch` handler.  External effects are passed in
explicitly:
* `render` — the markdown→HTML transform (`markdownToHtml`), an external
  pure collaborator;
* `newId` — the id the store's autoincrement assigns to the inserted row;
* `uuid` — the value of `self.crypto.randomUUID()`;
* `send_time` — `new Date().getTime()`;
* `insert_ok` — whether the D1 `INSERT` succeeds (`false` models
  `result.error` being set, which the code turns into a thrown
  `DatabaseError`);
* `im_send_ok` / `email_send_ok` — whether `MESSAGE_QUEUE.send` /
  `EMAIL_QUEUE.send` resolve (`false` models the send rejecting, i.e.
  throwing at the `await`).

Thrown exceptions reach the top-level `catch`, which maps a `DatabaseError`
to `500 "Database error"` and anything else to `500 "Internal server error"`.
-/

/-- The body of a `POST /comment` request (`PostCommentEvent`).  JavaScript
truthiness: `parent_comment_id` absent or `0` are both falsy, modelled as
`0`; `email` / `website` absent or `""` are both falsy, modelled as `""`. -/
structure PostEvent where
  article_id : String
  article_original_url : String
  parent_comment_id : Nat
  author : String
  email : String
  website : String
  content : String
deriving DecidableEq, Repr

/-- `TelegramCommentProperties`: the payload enqueued on `MESSAGE_QUEUE`. -/
structure TelegramProps where
  article_id : String
  article_original_url : String
  comment_id : Nat
  comment_timestamp : Nat
  author_name : String
  author_email : String
  markdown_content : String
deriving DecidableEq, Repr

/-- `EmailCommentProperties`: the shape of `reply_to_comment` in the email
queue payload. -/
structure EmailProps where
  comment_id : Nat
  comment_timestamp : Nat
  author_name : String
  author_email : String
  markdown_content : String
deriving DecidableEq, Repr

/-- `SendCommentNotificationEmailEvent`: the payload enqueued on
`EMAIL_QUEUE`.  The code enqueues the `TelegramCommentProperties` object
itself as `comment`. -/
structure EmailEvent where
  comment : TelegramProps
  reply_to_comment : Option EmailProps
deriving DecidableEq, Repr

/-- Result of one run of the POST branch: the HTTP status and body of the
response handed to `setCorsHeaderToResponse`, the table after the run, and
the messages accepted by the two queues during the run. -/
structure PostOutcome where
  status : Nat
  body : String
  table : Table
  im_jobs : List TelegramProps
  email_jobs : List EmailEvent
deriving DecidableEq, Repr

/-- The parent-comment check: when `event.parent_comment_id` is truthy, the
first row with that id (`SELECT ... WHERE id = ?1 LIMIT 1`); `.error ()` is
the not-found early return. -/
def lookupParent (table : Table) (parent_comment_id : Nat) : Except Unit (Option Row) :=
  if parent_comment_id ≠ 0 then
    match table.find? (fun r => r.id == parent_comment_id) with
    | none => .error ()
    | some p => .ok (some p)
  else .ok none

/-- The POST branch of `fetch` (src/src/index.ts, second worker, the
`req.method === 'POST'` block). -/
def postCommentHandler (render : String → String) (table : Table) (event : PostEvent)
    (newId : Nat) (uuid : String) (send_time : Nat)
    (insert_ok im_send_ok email_send_ok : Bool) : PostOutcome :=
  match lookupParent table event.parent_comment_id with
  | .error _ => ⟨404, "Parent comment not found", table, [], []⟩
  | .ok parent_comment =>
    let level : Nat :=
      match parent_comment with
      | some p => p.level + 1
      | none => 0
    let html_content := render event.content
    let row : Row :=
      ⟨newId, event.article_id, event.parent_comment_id, level, event.author,
        event.email, event.website, event.content, html_content, send_time, uuid⟩
    if insert_ok then
      let table2 := table ++ [row]
      match table2.find? (fun r => r.uuid == uuid) with
      | none => ⟨200, "OK", table2, [], []⟩
      | some found =>
        let comment_properties : TelegramProps :=
          ⟨event.article_id, event.article_original_url, found.id, send_time,
            event.author, event.email, event.content⟩
        if im_send_ok then
          if event.email ≠ "" then
            let email_event : EmailEvent :=
              ⟨comment_properties,
                parent_comment.map fun p =>
                  ⟨p.id, p.comment_timestamp_ms, p.author_name, p.author_email,
                    p.markdown_content⟩⟩
            if email_send_ok then
              ⟨200, "OK", table2, [comment_properties], [email_event]⟩
            else
              ⟨500, "Internal server error", table2, [comment_properties], []⟩
          else
            ⟨200, "OK", table2, [comment_properties], []⟩
        else
          ⟨500, "Internal server error", table2, [], []⟩
    else
      ⟨500, "Database error", table, [], []⟩

/-! ## Email queue worker

`registerRecipientEmail`, `sendEmail` and the `queue` handler.  Brevo (the
email provider) is an external collaborator; its responses come in as
oracles.  A `fetch`/`response.json()` that throws is modelled by the oracle
returning `.error ()`.
-/

/-- The fields of a Brevo `POST /v3/contacts` response the code looks at:
`response.ok`, whether `'id' in response_data`, and `response_data.code`. -/
structure BrevoContactResponse where
  ok : Bool
  has_id : Bool
  code : Option String
deriving DecidableEq, Repr

/-- `registerRecipientEmail`'s result computation:
`!response.ok || ('id' in response_data && response_data.code != 'duplicate_parameter')`.
`false` is reported (via `console.warn`) as a registration failure. -/
def registerRecipientEmail (resp : BrevoContactResponse) : Bool :=
  !resp.ok || (resp.has_id && resp.code != some "duplicate_parameter")

/-- One `POST /v3/smtp/email` request issued by `sendEmail`: the recipient
and the Brevo template (`2` = "you posted a comment" receipt to the new
author, `1` = "someone replied to you" notice to the parent author).  The
template params (dates rendered by `toLocaleString`, markdown content) are
provider-side formatting and are not modelled. -/
structure SendReq where
  to_email : String
  to_name : String
  templateId : Nat
deriving DecidableEq, Repr

/-- Outcome of one `postSendEmailRequest` call: the provider accepts
(`ok`, a `messageId` comes back), reports failure (`fail`, the function
returns `false`), or the HTTP call itself throws (`throws`). -/
inductive SendOutcome where
  | ok
  | fail
  | throws
deriving DecidableEq, Repr

/-- `sendEmail(email_event, api_key)`: the list of send requests actually
issued, and either `.error ()` (a call threw) or `.ok b` (the returned
boolean).  The second send happens only under
`email_event.reply_to_comment && comment.author_email !== reply_to_comment.author_email`,
and — because `result && (await postSendEmailRequest(...))` short-circuits —
only when the first send succeeded. -/
def sendEmail (send : SendReq → SendOutcome) (ev : EmailEvent) :
    List SendReq × Except Unit Bool :=
  let req1 : SendReq := ⟨ev.comment.author_email, ev.comment.author_name, 2⟩
  match send req1 with
  | .throws => ([req1], .error ())
  | r1 =>
    let result := r1 == .ok
    match ev.reply_to_comment with
    | some rt =>
      if ev.comment.author_email ≠ rt.author_email then
        if result then
          let req2 : SendReq := ⟨rt.author_email, rt.author_name, 1⟩
          match send req2 with
          | .throws => ([req1, req2], .error ())
          | r2 => ([req1, req2], .ok (r2 == .ok))
        else ([req1], .ok false)
      else ([req1], .ok result)
    | none => ([req1], .ok result)

/-- The worker's per-message verdict: `message.ack()` or `message.retry()`. -/
inductive Decision where
  | ack
  | retry
deriving DecidableEq, Repr

/-- Observable behaviour of the `queue` handler on one message: the
addresses passed to `registerRecipientEmail`, the send requests issued, and
the ack/retry decision. -/
structure WorkerOutcome where
  regs : List String
  sends : List SendReq
  decision : Decision
deriving DecidableEq, Repr

/-- The body of the `for (const message of batch.messages)` loop of the
`queue` handler, for one message.  `reg` is the Brevo contacts API
(`.error ()` = the HTTP call threw); `send` is the Brevo smtp API.  Note
that the handler `await`s `registerRecipientEmail` but discards its boolean
result (`registerRecipientEmail` appears below exactly where the code calls
it). -/
def processEmailMessage (reg : String → Except Unit BrevoContactResponse)
    (send : SendReq → SendOutcome) (ev : EmailEvent) : WorkerOutcome :=
  if ev.comment.author_email = "" then
    ⟨[], [], .ack⟩
  else
    match reg ev.comment.author_email with
    | .error _ => ⟨[ev.comment.author_email], [], .retry⟩
    | .ok resp1 =>
      let _ := registerRecipientEmail resp1
      match ev.reply_to_comment with
      | some rt =>
        if rt.author_email = "" then
          ⟨[ev.comment.author_email], [], .ack⟩
        else
          match reg rt.author_email with
          | .error _ => ⟨[ev.comment.author_email, rt.author_email], [], .retry⟩
          | .ok resp2 =>
            let _ := registerRecipientEmail resp2
            match sendEmail send ev with
            | (sends, .error _) => ⟨[ev.comment.author_email, rt.author_email], sends, .retry⟩
            | (sends, .ok true) => ⟨[ev.comment.author_email, rt.author_email], sends, .ack⟩
            | (sends, .ok false) => ⟨[ev.comment.author_email, rt.author_email], sends, .retry⟩
      | none =>
        match sendEmail send ev with
        | (sends, .error _) => ⟨[ev.comment.author_email], sends, .retry⟩
        | (sends, .ok true) => ⟨[ev.comment.author_email], sends, .ack⟩
        | (sends, .ok false) => ⟨[ev.comment.author_email], sends, .retry⟩

/-! ## Telegram notifier (blog-comment-telegram-notifier worker)

The notifier builds one text message per queue message and truncates it
with `String.prototype.substring(0, TELEGRAM_MESSAGE_LENGTH_LIMIT)`, which
counts UTF-16 code units.  Strings are therefore measured here in UTF-16
code units. -/

def TELEGRAM_MESSAGE_LENGTH_LIMIT : Nat := 4096

/-- UTF-16 encoding of one Unicode code point (one or two code units). -/
def charUtf16Units (c : Char) : List Nat :=
  if c.val.toNat < 0x10000 then [c.val.toNat]
  else [0xD800 + (c.val.toNat - 0x10000) / 0x400, 0xDC00 + (c.val.toNat - 0x10000) % 0x400]

/-- A string as its sequence of UTF-16 code units (JavaScript's string
representation, the unit `substring` counts). -/
def utf16Units (s : String) : List Nat :=
  s.data.flatMap charUtf16Units

/-- The text posted to the Telegram `sendMessage` API: the template literal
interpolating author name, optional parenthesized email, and the markdown
body, truncated by `.substring(0, TELEGRAM_MESSAGE_LENGTH_LIMIT)`. -/
def telegramMessageText (author_name author_email markdown_content : String) : List Nat :=
  (utf16Units
     ("你收到了来自 " ++ author_name ++ " "
       ++ (if author_email ≠ "" then "(" ++ author_email ++ ") " else "")
       ++ "的博客评论！\n\n" ++ markdown_content)).take TELEGRAM_MESSAGE_LENGTH_LIMIT

/-! ## GET /comment id-type validation

The GET branch reads `comment_base_type` and `comment_base_id` from the
query string.  For base type `article` it evaluates
`Number.isInteger(comment_base_id)` on the *string* (always `false`: no
coercion); for base type `comment` it converts with `Number(...)` and
requires `Number.isInteger` of the result.

`Number(string)` is modelled by `jsStringToNumber` in two stages, as the
ECMAScript `ToNumber` specification prescribes: first the exact
mathematical value of the string numeric literal (whitespace trim, empty
string → `0`, signed decimal with fraction and exponent, `Infinity`, and
unsigned `0x`/`0o`/`0b` literals), then that exact value rounded to an
IEEE-754 binary64 number with `roundTiesToEven` — a dyadic rational, or
`±Infinity` on overflow, with underflow to `0`. -/

/-- A JavaScript number as the id check sees it. -/
inductive JsNum where
  | nan
  | posInf
  | negInf
  | num (q : ℚ)
deriving DecidableEq, Repr

/-- JavaScript `WhiteSpace`/`LineTerminator` characters trimmed by
`Number(string)` (the common set). -/
def jsWhitespace (c : Char) : Bool :=
  c = ' ' || c = '\t' || c = '\n' || c = '\r' || c = '\x0B' || c = '\x0C' ||
  c = '\u00A0' || c = '\uFEFF' || c = '\u2028' || c = '\u2029'

/-- Value of a decimal digit. -/
def decDigitVal (c : Char) : Option Nat :=
  if '0' ≤ c && c ≤ '9' then some (c.toNat - 48) else none

/-- Value of a hexadecimal digit. -/
def hexDigitVal (c : Char) : Option Nat :=
  if '0' ≤ c && c ≤ '9' then some (c.toNat - 48)
  else if 'a' ≤ c && c ≤ 'f' then some (c.toNat - 87)
  else if 'A' ≤ c && c ≤ 'F' then some (c.toNat - 55)
  else none

/-- Value of an octal digit. -/
def octDigitVal (c : Char) : Option Nat :=
  if '0' ≤ c && c ≤ '7' then some (c.toNat - 48) else none

/-- Value of a binary digit. -/
def binDigitVal (c : Char) : Option Nat :=
  if c = '0' then some 0 else if c = '1' then some 1 else none

/-- Consume a maximal digit run: accumulated value, number of digits
consumed, rest. -/
def parseDigits (dv : Char → Option Nat) (base : Nat) :
    List Char → Nat → Nat → Nat × Nat × List Char
  | [], acc, n => (acc, n, [])
  | c :: cs, acc, n =>
    match dv c with
    | some d => parseDigits dv base cs (acc * base + d) (n + 1)
    | none => (acc, n, c :: cs)

/-- An optional exponent part closing a decimal literal; the rest of the
string must be exactly the exponent (or empty). -/
def finishExponent (mant : ℚ) (cs : List Char) : Option ℚ :=
  match cs with
  | [] => some mant
  | e :: r =>
    if e = 'e' || e = 'E' then
      let signAndRest : Bool × List Char :=
        match r with
        | '+' :: rr => (true, rr)
        | '-' :: rr => (false, rr)
        | rr => (true, rr)
      let parsed := parseDigits decDigitVal 10 signAndRest.2 0 0
      if parsed.2.1 = 0 || parsed.2.2 ≠ [] then none
      else if signAndRest.1 then some (mant * (10 : ℚ) ^ parsed.1)
      else some (mant / (10 : ℚ) ^ parsed.1)
    else none

/-- An unsigned decimal literal (`DecimalDigits [. DecimalDigits?]` or
`. DecimalDigits`, then an optional exponent), consuming the whole input. -/
def parseDecimalBody (cs : List Char) : Option ℚ :=
  let ipParsed := parseDigits decDigitVal 10 cs 0 0
  match ipParsed.2.2 with
  | '.' :: r =>
    let fpParsed := parseDigits decDigitVal 10 r 0 0
    if ipParsed.2.1 = 0 && fpParsed.2.1 = 0 then none
    else
      finishExponent ((ipParsed.1 : ℚ) + (fpParsed.1 : ℚ) / (10 : ℚ) ^ fpParsed.2.1)
        fpParsed.2.2
  | _ =>
    if ipParsed.2.1 = 0 then none
    else finishExponent (ipParsed.1 : ℚ) ipParsed.2.2

/-- An unsigned non-decimal integer literal (`0x…`, `0o…`, `0b…`),
consuming the whole input. -/
def parseRadix (dv : Char → Option Nat) (base : Nat) (cs : List Char) : JsNum :=
  let parsed := parseDigits dv base cs 0 0
  if parsed.2.1 = 0 || parsed.2.2 ≠ [] then .nan else .num (parsed.1 : ℚ)

/-- A signed decimal literal or signed `Infinity`. -/
def parseSignedDecimal (cs : List Char) : JsNum :=
  let signAndRest : Bool × List Char :=
    match cs with
    | '+' :: r => (true, r)
    | '-' :: r => (false, r)
    | r => (true, r)
  if signAndRest.2 = "Infinity".data then
    if signAndRest.1 then .posInf else .negInf
  else
    match parseDecimalBody signAndRest.2 with
    | none => .nan
    | some q => .num (if signAndRest.1 then q else -q)

/-- The exact mathematical value of the string numeric literal, before
IEEE-754 rounding. -/
def jsStringToNumberExact (s : String) : JsNum :=
  let cs := ((s.data.dropWhile jsWhitespace).reverse.dropWhile jsWhitespace).reverse
  if cs = [] then .num 0
  else
    match cs with
    | '0' :: b :: rest =>
      if b = 'x' || b = 'X' then parseRadix hexDigitVal 16 rest
      else if b = 'o' || b = 'O' then parseRadix octDigitVal 8 rest
      else if b = 'b' || b = 'B' then parseRadix binDigitVal 2 rest
      else parseSignedDecimal cs
    | _ => parseSignedDecimal cs

/-! IEEE-754 binary64 rounding of the exact value (`roundTiesToEven`, as
required by `ToNumber`).  Doubles are kept as exact dyadic rationals
`n * 2^qexp` with `n < 2^53`; overflow yields `±Infinity`, underflow `0`. -/

/-- Structural-recursion `floor (log2 n)` (`0` for `n ≤ 1`); the first
argument is fuel, always called with `fuel = n ≥ n`'s recursion depth. -/
def natLog2Aux : Nat → Nat → Nat
  | 0, _ => 0
  | fuel + 1, n => if n ≤ 1 then 0 else natLog2Aux fuel (n / 2) + 1

/-- `floor (log2 n)` for `n ≥ 1`. -/
def natLog2 (n : Nat) : Nat :=
  natLog2Aux n n

/-- Whether `a / b ≥ 2^k` (for `a b ≥ 1`), by clearing denominators. -/
def ratGeTwoPow (a b : Nat) (k : Int) : Bool :=
  if 0 ≤ k then decide (b * 2 ^ k.toNat ≤ a) else decide (b ≤ a * 2 ^ (-k).toNat)

/-- `floor (log2 (a / b))` for `a b ≥ 1`: the difference of the integer
logs is either exact or one too large. -/
def ratFloorLog2 (a b : Nat) : Int :=
  let e0 : Int := (natLog2 a : Int) - (natLog2 b : Int)
  if ratGeTwoPow a b e0 then e0 else e0 - 1

/-- `2^k` as a rational, for `k : ℤ`. -/
def twoZpow (k : Int) : ℚ :=
  if 0 ≤ k then (2 : ℚ) ^ k.toNat else 1 / (2 : ℚ) ^ (-k).toNat

/-- Round the positive rational `a / b` (`a b ≥ 1`) to the binary64 grid
with `roundTiesToEven`: `none` is overflow to `Infinity`.  The quantum is
`2^(e-52)` for a value in the normal binade `[2^e, 2^(e+1))` and
`2^(-1074)` below the normal range; a value at or above `2^1024` after
rounding overflows. -/
def roundPosToDouble (a b : Nat) : Option ℚ :=
  let e := ratFloorLog2 a b
  if 1024 ≤ e then none
  else
    let qexp : Int := if e ≤ -1023 then -1074 else e - 52
    let scaled : Nat × Nat :=
      if 0 ≤ qexp then (a, b * 2 ^ qexp.toNat) else (a * 2 ^ (-qexp).toNat, b)
    let m := scaled.1 / scaled.2
    let r := scaled.1 % scaled.2
    let n : Nat :=
      if 2 * r < scaled.2 then m
      else if scaled.2 < 2 * r then m + 1
      else if m % 2 = 0 then m else m + 1
    let v : ℚ := (n : ℚ) * twoZpow qexp
    if (2 : ℚ) ^ 1024 ≤ v then none else some v

/-- Round an exact rational to a binary64 value. -/
def roundToDouble (q : ℚ) : JsNum :=
  if q = 0 then .num 0
  else
    match roundPosToDouble q.num.natAbs q.den with
    | none => if 0 < q.num then .posInf else .negInf
    | some v => .num (if 0 < q.num then v else -v)

/-- Rounding applied to the finite case (`NaN` and the `Infinity` literal
pass through). -/
def roundJsNum : JsNum → JsNum
  | .num q => roundToDouble q
  | x => x

/-- JavaScript `Number(string)` (`ToNumber` on a string): the exact value
of the literal, rounded to binary64. -/
def jsStringToNumber (s : String) : JsNum :=
  roundJsNum (jsStringToNumberExact s)

/-- `Number.isInteger` on a number value. -/
def jsNumIsInteger : JsNum → Bool
  | .num q => q.den == 1
  | _ => false

/-- A JavaScript value as handed to `Number.isInteger` by the GET branch:
for base type `article` it is the raw query string. -/
inductive JsValue where
  | str (s : String)
  | jsnum (n : JsNum)
deriving DecidableEq, Repr

/-- `Number.isInteger(x)`: `false` for any non-number argument (no
coercion). -/
def jsNumberIsInteger : JsValue → Bool
  | .str _ => false
  | .jsnum n => jsNumIsInteger n

/-- The integer value the GET branch forwards to `recursiveQuery` after the
check passed. -/
def jsNumToInt : JsNum → Int
  | .num q => q.num
  | _ => 0

/-- Result of the id-type validation of the GET branch: either proceed to
`recursiveQuery` with the given base, or an early 400 response. -/
inductive IdCheck where
  | proceed (bt : BaseType) (bid : BaseId)
  | reject (status : Nat) (body : String)
deriving DecidableEq, Repr

/-- The id-type validation of the `req.method === 'GET'` branch
(src/src/index.ts, second worker, lines 763–776). -/
def getIdCheck (comment_base_type : String) (comment_base_id : String) : IdCheck :=
  if comment_base_type = "article" then
    if jsNumberIsInteger (.str comment_base_id) then .reject 400 "Invalid comment ID"
    else .proceed .article (.str comment_base_id)
  else if comment_base_type = "comment" then
    let n := jsStringToNumber comment_base_id
    if !jsNumIsInteger n then .reject 400 "Invalid comment ID"
    else .proceed .comment (.num (jsNumToInt n))
  else .reject 400 "Invalid comment base type"

/-! ## CORS layer: `corsHeaders` and `setCorsHeaderToResponse`

`corsHeaders` is a module-global mutable object.  `setCorsHeaderToResponse`
writes its `Access-Control-Allow-Origin` field when the request's origin is
allowed, and then copies *all* its fields onto the response — so the value
copied for a disallowed origin is whatever an earlier request left there.
The function is modelled with the global passed in and returned.  `RegExp`
is an external collaborator, passed in as `regexTest pattern input`. -/

/-- The module-global `corsHeaders` object (one field per header). -/
structure CorsHeaders where
  allow_origin : String
  allow_methods : String
  max_age : String
  allow_headers : String
  expose_headers : String
deriving DecidableEq, Repr

/-- The initial value of `corsHeaders` at module load. -/
def corsHeaders : CorsHeaders :=
  ⟨"", "GET,POST,OPTIONS", "86400", "Content-Type, Range, X-Request-With",
    "Content-Length, Content-Range"⟩

/-- JavaScript `String.prototype.substring`: negative indices clamp to `0`,
indices above the length clamp to the length, and the bounds swap when
given in the wrong order. -/
def jsSubstring (s : String) (start finish : Int) : String :=
  let len : Int := s.length
  let a := (max 0 (min start len)).toNat
  let b := (max 0 (min finish len)).toNat
  ⟨(s.data.drop (min a b)).take (max a b - min a b)⟩

/-- `allowedOrigin.startsWith('/')` for the one-character prefix the code
uses (spelled out over the character list so that it reduces in the
kernel). -/
def headIsSlash (s : String) : Bool :=
  match s.data with
  | [] => false
  | c :: _ => c = '/'

/-- `allowedOrigin.endsWith('/')` for the one-character suffix the code
uses. -/
def lastIsSlash (s : String) : Bool :=
  match s.data.getLast? with
  | some c => c = '/'
  | none => false

/-- The `for (const allowedOrigin of allowedOrigins)` loop computing
`is_allowed`: `'*'` allows everything; an entry delimited by `/` is a
regular expression tested against the origin; otherwise literal equality
(the code re-checks `allowedOrigins.includes(origin)` before accepting). -/
def isAllowedOriginLoop (regexTest : String → String → Bool)
    (allowedOrigins : List String) (origin : String) : List String → Bool
  | [] => false
  | a :: rest =>
    if a == "*" then true
    else if headIsSlash a && lastIsSlash a then
      if regexTest (jsSubstring a 1 ((a.length : Int) - 1)) origin then true
      else isAllowedOriginLoop regexTest allowedOrigins origin rest
    else if origin == a then
      if allowedOrigins.contains origin then true
      else isAllowedOriginLoop regexTest allowedOrigins origin rest
    else isAllowedOriginLoop regexTest allowedOrigins origin rest

/-- Whether `setCorsHeaderToResponse` sets `is_allowed` for this origin. -/
def isAllowedOrigin (regexTest : String → String → Bool)
    (allowedOrigins : List String) (origin : String) : Bool :=
  isAllowedOriginLoop regexTest allowedOrigins origin allowedOrigins

/-- A response as produced by the route handlers, before CORS decoration. -/
structure HttpResponse where
  status : Nat
  body : String
deriving DecidableEq, Repr

/-- The response after `setCorsHeaderToResponse`: `headers` is the snapshot
of `corsHeaders` copied onto it (`none` for the early `400` return, which
carries no CORS headers). -/
structure CorsResponse where
  status : Nat
  body : String
  headers : Option CorsHeaders
deriving DecidableEq, Repr

/-- `setCorsHeaderToResponse(request, response, allowedOrigins)`: takes and
returns the module-global `corsHeaders` state; `origin` is the request's
`Origin` header (`none` when absent). -/
def setCorsHeaderToResponse (regexTest : String → String → Bool)
    (state : CorsHeaders) (origin : Option String) (allowedOrigins : List String)
    (response : HttpResponse) : CorsHeaders × CorsResponse :=
  match origin with
  | none => (state, ⟨400, "Origin header not found", none⟩)
  | some o =>
    let state' :=
      if isAllowedOrigin regexTest allowedOrigins o then
        ⟨o, state.allow_methods, state.max_age, state.allow_headers, state.expose_headers⟩
      else state
    (state', ⟨response.status, response.body, some state'⟩)

/-! ## Shared lemmas for the POST handler theorems -/

/-- The row the INSERT writes (all nine bound values plus the uuid). -/
def insertedRow (render : String → String) (event : PostEvent)
    (newId : Nat) (uuid : String) (send_time : Nat) (pc : Option Row) : Row :=
  ⟨newId, event.article_id, event.parent_comment_id,
    (match pc with | some p => p.level + 1 | none => 0),
    event.author, event.email, event.website, event.content,
    render event.content, send_time, uuid⟩

/-- The `comment_properties` object built after the insert. -/
def enqueuedProps (event : PostEvent) (newId : Nat) (send_time : Nat) : TelegramProps :=
  ⟨event.article_id, event.article_original_url, newId, send_time,
    event.author, event.email, event.content⟩

/-- The `reply_to_comment` snapshot of the parent row. -/
def parentSnap (p : Row) : EmailProps :=
  ⟨p.id, p.comment_timestamp_ms, p.author_name, p.author_email, p.markdown_content⟩

/-- A freshly generated uuid finds exactly the just-inserted row (the
`SELECT id FROM comments WHERE uuid = ?1 LIMIT 1` read-back). -/
theorem find_uuid_append {table : Table} {row : Row} {uuid : String}
    (hrow : row.uuid = uuid) (h : ∀ r ∈ table, r.uuid ≠ uuid) :
    (table ++ [row]).find? (fun r => r.uuid == uuid) = some row := by
  induction table with
  | nil => simp [List.find?, hrow]
  | cons a t ih =>
    have ha : (a.uuid == uuid) = false := by
      simp only [beq_eq_false_iff_ne, ne_eq]
      exact h a (List.mem_cons_self a t)
    simp only [List.cons_append, List.find?_cons, ha]
    exact ih fun r hr => h r (List.mem_cons_of_mem a hr)

/-- With a successful insert, the table after the POST branch is always the
old table with the new row appended, whatever the queues do. -/
theorem postCommentHandler_table (render : String → String) (table : Table)
    (event : PostEvent) (newId : Nat) (uuid : String) (send_time : Nat)
    (im_send_ok email_send_ok : Bool) (pc : Option Row)
    (hpc : lookupParent table event.parent_comment_id = .ok pc) :
    (postCommentHandler render table event newId uuid send_time
        true im_send_ok email_send_ok).table
      = table ++ [insertedRow render event newId uuid send_time pc] := by
  unfold postCommentHandler
  rw [hpc]
  simp only [insertedRow, reduceIte]
  split
  · rfl
  · split_ifs <;> rfl

/-- Full characterization of a POST run with a successful insert and a
fresh uuid. -/
theorem postCommentHandler_run (render : String → String) (table : Table)
    (event : PostEvent) (newId : Nat) (uuid : String) (send_time : Nat)
    (im_send_ok email_send_ok : Bool) (pc : Option Row)
    (hpc : lookupParent table event.parent_comment_id = .ok pc)
    (hfresh : ∀ r ∈ table, r.uuid ≠ uuid) :
    postCommentHandler render table event newId uuid send_time
        true im_send_ok email_send_ok
      = (if im_send_ok then
           if event.email ≠ "" then
             if email_send_ok then
               ⟨200, "OK", table ++ [insertedRow render event newId uuid send_time pc],
                 [enqueuedProps event newId send_time],
                 [⟨enqueuedProps event newId send_time, pc.map parentSnap⟩]⟩
             else
               ⟨500, "Internal server error",
                 table ++ [insertedRow render event newId uuid send_time pc],
                 [enqueuedProps event newId send_time], []⟩
           else
             ⟨200, "OK", table ++ [insertedRow render event newId uuid send_time pc],
               [enqueuedProps event newId send_time], []⟩
         else
           ⟨500, "Internal server error",
             table ++ [insertedRow render event newId uuid send_time pc], [], []⟩) := by
  have hfind : (table ++ [insertedRow render event newId uuid send_time pc]).find?
      (fun r => r.uuid == uuid) = some (insertedRow render event newId uuid send_time pc) :=
    find_uuid_append rfl hfresh
  unfold postCommentHandler
  rw [hpc]
  simp only [insertedRow, enqueuedProps, parentSnap, reduceIte] at hfind ⊢
  rw [hfind]
  rfl

/-! ## Claims about POST /comment -/

/-- C1: a POST whose `parent_comment_id` is a non-zero id with no matching
row in the comments table yields HTTP 404, inserts no row, and enqueues no
IM or email job — the table and both queues are unchanged. -/
theorem post_nonexistent_parent_404 (render : String → String) (table : Table)
    (event : PostEvent) (newId : Nat) (uuid : String) (send_time : Nat)
    (insert_ok im_send_ok email_send_ok : Bool)
    (hpid : event.parent_comment_id ≠ 0)
    (hfind : table.find? (fun r => r.id == event.parent_comment_id) = none) :
    postCommentHandler render table event newId uuid send_time
        insert_ok im_send_ok email_send_ok
      = ⟨404, "Parent comment not found", table, [], []⟩ := by
  unfold postCommentHandler lookupParent
  simp [hpid, hfind]

/-- Witness for C1 at a concrete input. -/
theorem post_nonexistent_parent_404_witness :
    postCommentHandler (fun s => s) [] ⟨"art", "https://e/x", 5, "N", "", "", "c"⟩
        1 "u1" 0 true true true
      = ⟨404, "Parent comment not found", [], [], []⟩ :=
  post_nonexistent_parent_404 (fun s => s) [] ⟨"art", "https://e/x", 5, "N", "", "", "c"⟩
    1 "u1" 0 true true true (by decide) rfl

/-- C2: for a valid POST without `parent_comment_id` (absent or `0`) whose
insert succeeds, the stored row has `level = 0`; for a valid POST whose
`parent_comment_id` matches an existing row, the stored row has
`level = parent.level + 1`. -/
theorem post_stored_level (render : String → String) (table : Table)
    (event : PostEvent) (newId : Nat) (uuid : String) (send_time : Nat)
    (im_send_ok email_send_ok : Bool) :
    (event.parent_comment_id = 0 →
      (postCommentHandler render table event newId uuid send_time
          true im_send_ok email_send_ok).table
        = table ++ [⟨newId, event.article_id, 0, 0, event.author, event.email,
            event.website, event.content, render event.content, send_time, uuid⟩]) ∧
    (∀ p : Row, event.parent_comment_id ≠ 0 →
      table.find? (fun r => r.id == event.parent_comment_id) = some p →
      (postCommentHandler render table event newId uuid send_time
          true im_send_ok email_send_ok).table
        = table ++ [⟨newId, event.article_id, event.parent_comment_id, p.level + 1,
            event.author, event.email, event.website, event.content,
            render event.content, send_time, uuid⟩]) := by
  constructor
  · intro h0
    have hpc : lookupParent table event.parent_comment_id = .ok none := by
      simp [lookupParent, h0]
    rw [postCommentHandler_table render table event newId uuid send_time
      im_send_ok email_send_ok none hpc]
    simp [insertedRow, h0]
  · intro p hpid hfind
    have hpc : lookupParent table event.parent_comment_id = .ok (some p) := by
      simp [lookupParent, hpid, hfind]
    rw [postCommentHandler_table render table event newId uuid send_time
      im_send_ok email_send_ok (some p) hpc]
    simp [insertedRow]

/-- Witness for C2 at concrete inputs (both conjuncts). -/
theorem post_stored_level_witness :
    (postCommentHandler (fun s => s) [] ⟨"art", "https://e/x", 0, "N", "", "", "c"⟩
        1 "u1" 9 true true true).table
      = [⟨1, "art", 0, 0, "N", "", "", "c", "c", 9, "u1"⟩] ∧
    (postCommentHandler (fun s => s) [⟨1, "art", 0, 4, "A", "", "", "m", "h", 3, "u1"⟩]
        ⟨"art", "https://e/x", 1, "N", "", "", "c"⟩ 2 "u2" 9 true true true).table
      = [⟨1, "art", 0, 4, "A", "", "", "m", "h", 3, "u1"⟩,
          ⟨2, "art", 1, 5, "N", "", "", "c", "c", 9, "u2"⟩] :=
  ⟨(post_stored_level (fun s => s) [] ⟨"art", "https://e/x", 0, "N", "", "", "c"⟩
      1 "u1" 9 true true).1 rfl,
    (post_stored_level (fun s => s) [⟨1, "art", 0, 4, "A", "", "", "m", "h", 3, "u1"⟩]
      ⟨"art", "https://e/x", 1, "N", "", "", "c"⟩ 2 "u2" 9 true true).2
      ⟨1, "art", 0, 4, "A", "", "", "m", "h", 3, "u1"⟩ (by decide) rfl⟩

/-- C3: a POST that persists its comment row (successful insert, fresh
uuid, accepting queues) enqueues exactly one IM job unconditionally, and
enqueues an email job if and only if the request supplied a non-empty
author email. -/
theorem post_enqueue_im_and_email (render : String → String) (table : Table)
    (event : PostEvent) (newId : Nat) (uuid : String) (send_time : Nat)
    (pc : Option Row)
    (hpc : lookupParent table event.parent_comment_id = .ok pc)
    (hfresh : ∀ r ∈ table, r.uuid ≠ uuid) :
    (postCommentHandler render table event newId uuid send_time true true true).im_jobs
      = [enqueuedProps event newId send_time] ∧
    (postCommentHandler render table event newId uuid send_time true true true).email_jobs
      = (if event.email ≠ ""
         then [⟨enqueuedProps event newId send_time, pc.map parentSnap⟩]
         else []) := by
  rw [postCommentHandler_run render table event newId uuid send_time true true pc hpc hfresh]
  by_cases he : event.email = "" <;> simp [he]

/-- Witness for C3 at concrete inputs (author with an email; the parent
snapshot rides along). -/
theorem post_enqueue_im_and_email_witness :
    (postCommentHandler (fun s => s) [⟨1, "art", 0, 0, "A", "a@x", "", "m", "h", 3, "u1"⟩]
        ⟨"art", "https://e/x", 1, "N", "n@x", "", "c"⟩ 2 "u2" 9 true true true).im_jobs
      = [⟨"art", "https://e/x", 2, 9, "N", "n@x", "c"⟩] ∧
    (postCommentHandler (fun s => s) [⟨1, "art", 0, 0, "A", "a@x", "", "m", "h", 3, "u1"⟩]
        ⟨"art", "https://e/x", 1, "N", "n@x", "", "c"⟩ 2 "u2" 9 true true true).email_jobs
      = [⟨⟨"art", "https://e/x", 2, 9, "N", "n@x", "c"⟩, some ⟨1, 3, "A", "a@x", "m"⟩⟩] := by
  have h := post_enqueue_im_and_email (fun s => s)
    [⟨1, "art", 0, 0, "A", "a@x", "", "m", "h", 3, "u1"⟩]
    ⟨"art", "https://e/x", 1, "N", "n@x", "", "c"⟩ 2 "u2" 9
    (some ⟨1, "art", 0, 0, "A", "a@x", "", "m", "h", 3, "u1"⟩) rfl (by decide)
  exact ⟨h.1, by simpa using h.2⟩

/-- Counterexample to C5 as stated: with the comment row durably persisted
(successful insert) and `MESSAGE_QUEUE.send` rejecting, the handler does
NOT return a success response — the exception escapes to the top-level
`catch`, which returns HTTP 500. -/
theorem post_queue_reject_counterexample :
    (postCommentHandler (fun s => s) [] ⟨"art", "https://e/x", 0, "N", "", "", "c"⟩
        1 "u1" 7 true false true).status = 500 ∧
    (postCommentHandler (fun s => s) [] ⟨"art", "https://e/x", 0, "N", "", "", "c"⟩
        1 "u1" 7 true false true).body = "Internal server error" ∧
    (postCommentHandler (fun s => s) [] ⟨"art", "https://e/x", 0, "N", "", "", "c"⟩
        1 "u1" 7 true false true).table
      = [⟨1, "art", 0, 0, "N", "", "", "c", "c", 7, "u1"⟩] := by
  refine ⟨rfl, rfl, rfl⟩

/-- C5 (amended): when the comment row is durably persisted but a queue
send rejects, the handler responds `500 "Internal server error"` (the
top-level catch), not success — yet the inserted row remains in the
table. -/
theorem post_queue_reject_500 (render : String → String) (table : Table)
    (event : PostEvent) (newId : Nat) (uuid : String) (send_time : Nat)
    (im_send_ok email_send_ok : Bool) (pc : Option Row)
    (hpc : lookupParent table event.parent_comment_id = .ok pc)
    (hfresh : ∀ r ∈ table, r.uuid ≠ uuid)
    (hfail : im_send_ok = false ∨ (event.email ≠ "" ∧ email_send_ok = false)) :
    (postCommentHandler render table event newId uuid send_time
        true im_send_ok email_send_ok).status = 500 ∧
    (postCommentHandler render table event newId uuid send_time
        true im_send_ok email_send_ok).body = "Internal server error" ∧
    (postCommentHandler render table event newId uuid send_time
        true im_send_ok email_send_ok).table
      = table ++ [insertedRow render event newId uuid send_time pc] := by
  rw [postCommentHandler_run render table event newId uuid send_time
    im_send_ok email_send_ok pc hpc hfresh]
  rcases hfail with him | ⟨hemail, hem⟩
  · subst him
    simp
  · subst hem
    cases im_send_ok <;> simp [hemail]

/-- Witness for the amended C5 at a concrete input (email queue rejects). -/
theorem post_queue_reject_500_witness :
    (postCommentHandler (fun s => s) [] ⟨"art", "https://e/x", 0, "N", "n@x", "", "c"⟩
        1 "u1" 7 true true false).status = 500 ∧
    (postCommentHandler (fun s => s) [] ⟨"art", "https://e/x", 0, "N", "n@x", "", "c"⟩
        1 "u1" 7 true true false).body = "Internal server error" ∧
    (postCommentHandler (fun s => s) [] ⟨"art", "https://e/x", 0, "N", "n@x", "", "c"⟩
        1 "u1" 7 true true false).table
      = [⟨1, "art", 0, 0, "N", "n@x", "", "c", "c", 7, "u1"⟩] := by
  have h := post_queue_reject_500 (fun s => s) [] ⟨"art", "https://e/x", 0, "N", "n@x", "", "c"⟩
    1 "u1" 7 true false none rfl (by decide) (Or.inr ⟨by decide, rfl⟩)
  simpa using h

/-! ## Claim about the tree query engine -/

/-- C4: with `is_recursive=false`, `recursiveQuery` returns exactly the
immediate children of the base, each with an empty `children` array; with
`is_recursive=true` it returns the same immediate children (same rows, same
order), each carrying as `children` a full recursive query rooted at its
id — i.e. children are recursively populated along the stored `parent_id`
links as far as the remaining call depth reaches. -/
theorem recursiveQuery_children (table : Table) (fuel : Nat) (bt : BaseType) (bid : BaseId) :
    recursiveQuery table (fuel + 1) bt bid false
      = some ((table.filter fun r => rowMatchesBase r bt bid).map fun r => rowToComment r []) ∧
    (∀ res, recursiveQuery table (fuel + 1) bt bid true = some res →
      List.Forall₂
        (fun r c => treeRoot c = rowToComment r [] ∧
          recursiveQuery table fuel .comment (.num r.id) true = some c.children)
        (table.filter fun r => rowMatchesBase r bt bid) res) := by
  constructor
  · simp only [recursiveQuery]
    exact queryLoop_eq_some_of_forall _ _ _ fun r hr => rfl
  · intro res h
    simp only [recursiveQuery] at h
    have h2 := forall₂_of_queryLoop_eq_some _ _ _ h
    refine List.Forall₂.imp ?_ h2
    intro r c hc
    simp only [reduceIte] at hc
    cases hq : recursiveQuery table fuel .comment (.num r.id) true with
    | none =>
      rw [hq] at hc
      exact absurd hc (by simp)
    | some children =>
      rw [hq] at hc
      simp only [Option.some.injEq] at hc
      subst hc
      exact ⟨rfl, rfl⟩

/-- A small concrete table for the C4 witness: ids 1 ← 2 ← 3 chained under
article `"art"`, plus an unrelated top-level row of another article. -/
def tblW : Table :=
  [⟨1, "art", 0, 0, "A", "a@x", "", "m1", "h1", 10, "u1"⟩,
    ⟨2, "art", 1, 1, "B", "", "", "m2", "h2", 20, "u2"⟩,
    ⟨3, "art", 2, 2, "C", "", "", "m3", "h3", 30, "u3"⟩,
    ⟨4, "other", 0, 0, "D", "", "", "m4", "h4", 40, "u4"⟩]

/-- The recursive query result over `tblW` from article `"art"`. -/
def resW : List CommentTree :=
  [⟨1, "A", "a@x", "", "h1", 10,
    [⟨2, "B", "", "", "h2", 20,
      [⟨3, "C", "", "", "h3", 30, []⟩]⟩]⟩]

/-- Witness for C4 on the concrete table `tblW`. -/
theorem recursiveQuery_children_witness :
    recursiveQuery tblW 4 .article (.str "art") false
      = some ((tblW.filter fun r => rowMatchesBase r .article (.str "art")).map
          fun r => rowToComment r []) ∧
    List.Forall₂
      (fun r c => treeRoot c = rowToComment r [] ∧
        recursiveQuery tblW 3 .comment (.num r.id) true = some c.children)
      (tblW.filter fun r => rowMatchesBase r .article (.str "art")) resW :=
  ⟨(recursiveQuery_children tblW 3 .article (.str "art")).1,
    (recursiveQuery_children tblW 3 .article (.str "art")).2 resW rfl⟩

/-! ## Claims about the email queue worker -/

/-- C6 (evaluation at the failing input): the Brevo contacts API reports a
registration failure whose cause is not "already exists"
(`registerRecipientEmail` returns `false`), yet the worker does not abort:
it proceeds to attempt the send and *acknowledges* the message when the
send succeeds — the registration outcome is computed and then discarded. -/
theorem email_worker_ignores_registration_failure :
    registerRecipientEmail ⟨true, false, some "invalid_parameter"⟩ = false ∧
    processEmailMessage (fun _ => .ok ⟨true, false, some "invalid_parameter"⟩)
        (fun _ => .ok)
        ⟨⟨"art", "https://e/x", 5, 99, "Alice", "alice@example.com", "hi"⟩, none⟩
      = ⟨["alice@example.com"], [⟨"alice@example.com", "Alice", 2⟩], .ack⟩ :=
  ⟨rfl, rfl⟩

/-- C7: when the new comment's author email equals the parent comment
author's email, `sendEmail` issues exactly one send — the template-2
"you posted a comment" variant addressed to the author — never two. -/
theorem sendEmail_no_double_notify (send : SendReq → SendOutcome) (ev : EmailEvent)
    (rt : EmailProps) (hrt : ev.reply_to_comment = some rt)
    (heq : ev.comment.author_email = rt.author_email) :
    (sendEmail send ev).1 = [⟨ev.comment.author_email, ev.comment.author_name, 2⟩] := by
  unfold sendEmail
  simp only [hrt, heq, ne_eq, not_true_eq_false, if_false, ite_false]
  cases send ⟨rt.author_email, ev.comment.author_name, 2⟩ <;> rfl

/-- Witness for C7 at a concrete input (author replies to their own
comment). -/
theorem sendEmail_no_double_notify_witness :
    (sendEmail (fun _ => .ok)
        ⟨⟨"art", "https://e/x", 5, 99, "N", "e@x", "m"⟩,
          some ⟨1, 10, "P", "e@x", "pm"⟩⟩).1
      = [⟨"e@x", "N", 2⟩] :=
  sendEmail_no_double_notify (fun _ => .ok)
    ⟨⟨"art", "https://e/x", 5, 99, "N", "e@x", "m"⟩, some ⟨1, 10, "P", "e@x", "pm"⟩⟩
    ⟨1, 10, "P", "e@x", "pm"⟩ rfl rfl

/-! ## Claim about the Telegram notifier -/

/-- C8: whatever the markdown content's length, the text posted to
Telegram is at most `TELEGRAM_MESSAGE_LENGTH_LIMIT` (4096) UTF-16 code
units, and it is exactly the truncation of the template literal built from
the author display name, the optional parenthesized email (omitted when
the email is empty), and the markdown body. -/
theorem telegram_message_bounded (author_name author_email markdown_content : String) :
    (telegramMessageText author_name author_email markdown_content).length
      ≤ TELEGRAM_MESSAGE_LENGTH_LIMIT ∧
    telegramMessageText author_name author_email markdown_content
      = (utf16Units
          ("你收到了来自 " ++ author_name ++ " "
            ++ (if author_email ≠ "" then "(" ++ author_email ++ ") " else "")
            ++ "的博客评论！\n\n" ++ markdown_content)).take
          TELEGRAM_MESSAGE_LENGTH_LIMIT := by
  constructor
  · calc (telegramMessageText author_name author_email markdown_content).length
        = min TELEGRAM_MESSAGE_LENGTH_LIMIT _ := List.length_take _ _
      _ ≤ TELEGRAM_MESSAGE_LENGTH_LIMIT := Nat.min_le_left _ _
  · rfl

/-! ## Claim about the GET id-type validation -/

/-- C9: with `comment_base_type=article` the id-type check never rejects —
`Number.isInteger` applied to the (string-typed) id is always `false`, so
every id string, numeric-looking or not, proceeds to the query; with
`comment_base_type=comment`, a `comment_base_id` whose `Number(...)`
conversion is not an integer yields the early `400 "Invalid comment ID"`. -/
theorem get_id_type_check (s : String) :
    getIdCheck "article" s = .proceed .article (.str s) ∧
    (jsNumIsInteger (jsStringToNumber s) = false →
      getIdCheck "comment" s = .reject 400 "Invalid comment ID") := by
  constructor
  · rfl
  · intro h
    simp [getIdCheck, h]

/-- Witness for C9: `"abc"` does not denote an integer and is rejected for
base type comment; the same non-numeric string proceeds for base type
article. -/
theorem get_id_type_check_witness :
    getIdCheck "article" "abc" = .proceed .article (.str "abc") ∧
    jsNumIsInteger (jsStringToNumber "abc") = false ∧
    getIdCheck "comment" "abc" = .reject 400 "Invalid comment ID" :=
  ⟨(get_id_type_check "abc").1, rfl, (get_id_type_check "abc").2 rfl⟩

/-! ## Claim about the CORS layer -/

/-- C10: `setCorsHeaderToResponse` works through the module-global
`corsHeaders` object.  An allowed Origin overwrites its
`Access-Control-Allow-Origin` field (and the response carries the new
value); a disallowed Origin leaves the global untouched and the response
carries whatever the field currently holds.  Consequently the function is
not a pure function of its per-request inputs: the same disallowed-origin
request yields different response headers from the initial state and from
the state left behind by an earlier allowed request — and that second
state is reachable by such an earlier request. -/
theorem setCorsHeaderToResponse_stateful (regexTest : String → String → Bool)
    (state : CorsHeaders) (allowedOrigins : List String) (o : String)
    (response : HttpResponse) :
    (isAllowedOrigin regexTest allowedOrigins o = true →
      setCorsHeaderToResponse regexTest state (some o) allowedOrigins response
        = (⟨o, state.allow_methods, state.max_age, state.allow_headers,
              state.expose_headers⟩,
            ⟨response.status, response.body,
              some ⟨o, state.allow_methods, state.max_age, state.allow_headers,
                state.expose_headers⟩⟩)) ∧
    (isAllowedOrigin regexTest allowedOrigins o = false →
      setCorsHeaderToResponse regexTest state (some o) allowedOrigins response
        = (state, ⟨response.status, response.body, some state⟩)) ∧
    ((setCorsHeaderToResponse (fun _ _ => false) corsHeaders
        (some "https://evil.example") ["https://blog.example"] ⟨200, "OK"⟩).2
      ≠ (setCorsHeaderToResponse (fun _ _ => false)
          ⟨"https://blog.example", "GET,POST,OPTIONS", "86400",
            "Content-Type, Range, X-Request-With", "Content-Length, Content-Range"⟩
          (some "https://evil.example") ["https://blog.example"] ⟨200, "OK"⟩).2) ∧
    ((setCorsHeaderToResponse (fun _ _ => false) corsHeaders
        (some "https://blog.example") ["https://blog.example"] ⟨200, "OK"⟩).1
      = ⟨"https://blog.example", "GET,POST,OPTIONS", "86400",
          "Content-Type, Range, X-Request-With", "Content-Length, Content-Range"⟩) := by
  refine ⟨?_, ?_, by decide, by decide⟩
  · intro h
    simp [setCorsHeaderToResponse, h]
  · intro h
    simp [setCorsHeaderToResponse, h]

/-- Witness for C10: both hypothesised conjuncts instantiated over the
initial `corsHeaders` state. -/
theorem setCorsHeaderToResponse_stateful_witness :
    setCorsHeaderToResponse (fun _ _ => false) corsHeaders
        (some "https://blog.example") ["https://blog.example"] ⟨200, "OK"⟩
      = (⟨"https://blog.example", "GET,POST,OPTIONS", "86400",
            "Content-Type, Range, X-Request-With", "Content-Length, Content-Range"⟩,
          ⟨200, "OK",
            some ⟨"https://blog.example", "GET,POST,OPTIONS", "86400",
              "Content-Type, Range, X-Request-With", "Content-Length, Content-Range"⟩⟩) ∧
    setCorsHeaderToResponse (fun _ _ => false) corsHeaders
        (some "https://evil.example") ["https://blog.example"] ⟨200, "OK"⟩
      = (corsHeaders, ⟨200, "OK", some corsHeaders⟩) :=
  ⟨(setCorsHeaderToResponse_stateful (fun _ _ => false) corsHeaders
      ["https://blog.example"] "https://blog.example" ⟨200, "OK"⟩).1 (by decide),
    (setCorsHeaderToResponse_stateful (fun _ _ => false) corsHeaders
      ["https://blog.example"] "https://evil.example" ⟨200, "OK"⟩).2.1 (by decide)⟩

end BlogCommentService
